import Mathlib

/-!
Verification of the fallback-and-session core of the `online-presence-mcp`
repository (a Bluesky MCP server written in TypeScript).

The development shallowly embeds the source files:
  * `src/auth/bluesky.ts`     — singleton session manager
  * `src/mocks/responses.ts`  — synthetic post generator
  * `src/resources/timeline.ts` / the revision with the live `getAuthorFeed`
    call — timeline resource and `generateMockTimeline`
  * `src/tools/post.ts` — both revisions found in the repository: the one
    that registers `bluesky_delete_post` (create-post reports errors) and the
    earlier one whose create-post falls back to a mock response

JavaScript numbers that the code actually manipulates are embedded as `Int`
(`Date.now()` epoch milliseconds, counters, limits), with `Option Int`
standing for "number or NaN" where `parseInt` can produce NaN.  External
effects (environment, wall clock, `Math.random`, the network API) are passed
as explicit parameters; fallible API calls are `Except` values.
-/

/-! ## JavaScript-flavoured primitives -/

/-- Character class `[0-9]` (also JS digit test used by `parseInt`). -/
def isDigitCh (c : Char) : Bool := decide (48 ≤ c.toNat ∧ c.toNat ≤ 57)

/-- Character class `[a-z]`. -/
def isLowerCh (c : Char) : Bool := decide (97 ≤ c.toNat ∧ c.toNat ≤ 122)

/-- Character class `[A-Z]`. -/
def isUpperCh (c : Char) : Bool := decide (65 ≤ c.toNat ∧ c.toNat ≤ 90)

/-- Whitespace skipped by JS `parseInt`. -/
def isSpaceCh (c : Char) : Bool :=
  decide (c.toNat = 32 ∨ c.toNat = 9 ∨ c.toNat = 10 ∨ c.toNat = 13)

/-- Character class `[a-z0-9:]` of the DID segment of the AT-URI regex. -/
def isDidCh (c : Char) : Bool := isLowerCh c || isDigitCh c || decide (c.toNat = 58)

/-- Character class `[a-zA-Z0-9]` of the record-key segment of the AT-URI regex. -/
def isRkeyCh (c : Char) : Bool := isLowerCh c || isUpperCh c || isDigitCh c

/-- JS truthiness of an optional string (`undefined` and `""` are falsy). -/
def jsTruthyStr (o : Option String) : Bool :=
  match o with
  | none => false
  | some s => decide (s ≠ "")

/-- JS `o || d` on optional strings. -/
def jsOrStr (o : Option String) (d : String) : String :=
  match o with
  | none => d
  | some s => if s = "" then d else s

/-- JS `cursor || undefined` / `cursor || null`: canonicalise the empty string away. -/
def jsOrNone (o : Option String) : Option String :=
  match o with
  | none => none
  | some s => if s = "" then none else some s

/-- JS `x || 0` on a possibly-undefined number (`0` itself is falsy, yielding `0`). -/
def jsOrZero (o : Option Int) : Int :=
  match o with
  | none => 0
  | some n => if n = 0 then 0 else n

/-- NaN-propagating addition: `Option Int` models a JS number that may be NaN. -/
def jadd : Option Int → Option Int → Option Int
  | some a, some b => some (a + b)
  | _, _ => none

/-- NaN-propagating subtraction. -/
def jsub : Option Int → Option Int → Option Int
  | some a, some b => some (a - b)
  | _, _ => none

/-- NaN-propagating multiplication. -/
def jmul : Option Int → Option Int → Option Int
  | some a, some b => some (a * b)
  | _, _ => none

/-! ## Decimal rendering (`String(n)`) and `parseInt(s, 10)` -/

/-- Least-significant-first decimal digits of `n`.  The first argument is
structural-recursion fuel; `n` itself always suffices. -/
def digitsRevFuel : Nat → Nat → List Nat
  | 0, _ => []
  | f + 1, n => if n = 0 then [] else n % 10 :: digitsRevFuel f (n / 10)

/-- Least-significant-first decimal digits of `n` (empty for `0`). -/
def digitsRev (n : Nat) : List Nat := digitsRevFuel n n

/-- Value of a least-significant-first digit list. -/
def ofDigitsRev : List Nat → Nat
  | [] => 0
  | d :: ds => d + 10 * ofDigitsRev ds

/-- The character for a single decimal digit. -/
def digitCharOf (d : Nat) : Char := Char.ofNat (48 + d)

/-- JS `String(n)` for a non-negative number, as a character list. -/
def jsStringOfNat (n : Nat) : List Char :=
  if n = 0 then ['0'] else (digitsRev n).reverse.map digitCharOf

/-- JS `String(i)` for an integer, as a character list. -/
def jsStringOfInt (i : Int) : List Char :=
  if i < 0 then '-' :: jsStringOfNat i.natAbs else jsStringOfNat i.toNat

/-- JS `String(x)` for a number that may be NaN. -/
def jstrOpt (o : Option Int) : List Char :=
  match o with
  | none => "NaN".data
  | some i => jsStringOfInt i

/-- Accumulating decimal value of a most-significant-first digit character list. -/
def parseDigits : List Char → Nat → Nat
  | [], acc => acc
  | c :: cs, acc => parseDigits cs (acc * 10 + (c.toNat - 48))

/-- Digit-run part of `parseInt`: longest digit prefix, NaN (`none`) if empty. -/
def jsParseIntTail (l : List Char) (neg : Bool) : Option Int :=
  let ds := l.takeWhile isDigitCh
  if ds = [] then none
  else some (if neg then -(parseDigits ds 0 : Int) else (parseDigits ds 0 : Int))

/-- JS `parseInt(s, 10)`: skip whitespace, optional sign, longest digit prefix;
`none` models NaN. -/
def jsParseInt (s : String) : Option Int :=
  match s.data.dropWhile isSpaceCh with
  | [] => none
  | c :: rest =>
    if c = '-' then jsParseIntTail rest true
    else if c = '+' then jsParseIntTail rest false
    else jsParseIntTail (c :: rest) false

/-- JS `s.slice(-n)`: the last `n` characters (the whole list when shorter). -/
def lastN (n : Nat) (l : List Char) : List Char := l.drop (l.length - n)

/-- JS `s.padStart(n, '0')`. -/
def padStartZeros (n : Nat) (l : List Char) : List Char :=
  List.replicate (n - l.length) '0' ++ l

/-- Is `needle` a prefix of `hay`? (Boolean, by direct recursion.) -/
def isPrefixCh : List Char → List Char → Bool
  | [], _ => true
  | _ :: _, [] => false
  | p :: ps, c :: cs => decide (c = p) && isPrefixCh ps cs

/-- JS `hay.includes(needle)` on character lists. -/
def containsCh (needle : List Char) : List Char → Bool
  | [] => needle.isEmpty
  | c :: cs => isPrefixCh needle (c :: cs) || containsCh needle cs

/-- JS `hay.includes(needle)` on strings. -/
def strContains (hay needle : String) : Bool := containsCh needle.data hay.data

/-- `m?.includes(needle)` on an optional string (undefined propagates to false). -/
def optContains (m : Option String) (needle : String) : Bool :=
  match m with
  | none => false
  | some s => strContains s needle

/-- Strip a literal prefix, returning the remainder on success. -/
def stripPfx : List Char → List Char → Option (List Char)
  | [], rest => some rest
  | _ :: _, [] => none
  | p :: ps, c :: cs => if c = p then stripPfx ps cs else none

/-! ## Basic lemmas about the primitives -/

theorem parseDigits_append (l₁ l₂ : List Char) (acc : Nat) :
    parseDigits (l₁ ++ l₂) acc = parseDigits l₂ (parseDigits l₁ acc) := by
  induction l₁ generalizing acc with
  | nil => rfl
  | cons c cs ih => simp [parseDigits, ih]

theorem digitCharOf_val {d : Nat} (h : d < 10) : (digitCharOf d).toNat - 48 = d := by
  interval_cases d <;> decide

theorem digitCharOf_isDigit {d : Nat} (h : d < 10) : isDigitCh (digitCharOf d) = true := by
  interval_cases d <;> decide

theorem digitsRevFuel_sound : ∀ f n, n ≤ f → ofDigitsRev (digitsRevFuel f n) = n := by
  intro f
  induction f with
  | zero => intro n h; interval_cases n; rfl
  | succ f ih =>
    intro n h
    by_cases h0 : n = 0
    · simp [digitsRevFuel, h0, ofDigitsRev]
    · have hdiv : n / 10 ≤ f := by
        have := Nat.div_le_self n 10
        have hlt : n / 10 < n := Nat.div_lt_self (Nat.pos_of_ne_zero h0) (by omega)
        omega
      simp only [digitsRevFuel, h0, if_false, ofDigitsRev, ih _ hdiv]
      omega

theorem digitsRevFuel_lt10 : ∀ f n d, d ∈ digitsRevFuel f n → d < 10 := by
  intro f
  induction f with
  | zero => intro n d h; simp [digitsRevFuel] at h
  | succ f ih =>
    intro n d h
    by_cases h0 : n = 0
    · simp [digitsRevFuel, h0] at h
    · simp only [digitsRevFuel, h0, if_false, List.mem_cons] at h
      rcases h with h | h
      · subst h; exact Nat.mod_lt _ (by omega)
      · exact ih _ _ h

theorem digitsRevFuel_ne_nil {f n : Nat} (h0 : n ≠ 0) (hf : n ≤ f) :
    digitsRevFuel f n ≠ [] := by
  cases f with
  | zero => omega
  | succ f => simp [digitsRevFuel, h0]

theorem digitsRevFuel_len_le : ∀ f n k, n < 10 ^ k → (digitsRevFuel f n).length ≤ k := by
  intro f
  induction f with
  | zero => intro n k _; simp [digitsRevFuel]
  | succ f ih =>
    intro n k hk
    by_cases h0 : n = 0
    · simp [digitsRevFuel, h0]
    · have hkpos : k ≠ 0 := by
        intro h; rw [h] at hk; simp at hk; omega
      have hdiv : n / 10 < 10 ^ (k - 1) := by
        have h10 : 10 ^ k = 10 ^ (k - 1) * 10 := by
          conv_lhs => rw [show k = (k - 1) + 1 by omega]
          rw [pow_succ]
        apply Nat.div_lt_of_lt_mul
        omega
      simp only [digitsRevFuel, h0, if_false, List.length_cons]
      have := ih (n / 10) (k - 1) hdiv
      omega

theorem parseDigits_rev_map (L : List Nat) (acc : Nat) (hL : ∀ d ∈ L, d < 10) :
    parseDigits (L.reverse.map digitCharOf) acc = acc * 10 ^ L.length + ofDigitsRev L := by
  induction L generalizing acc with
  | nil => simp [parseDigits, ofDigitsRev]
  | cons d ds ih =>
    have hd : d < 10 := hL d (by simp)
    have hds : ∀ x ∈ ds, x < 10 := fun x hx => hL x (by simp [hx])
    simp only [List.reverse_cons, List.map_append, List.map_cons, List.map_nil,
      parseDigits_append, ih _ hds]
    simp [parseDigits, ofDigitsRev, digitCharOf_val hd, List.length_cons]
    ring

theorem parseDigits_jsStringOfNat (n : Nat) : parseDigits (jsStringOfNat n) 0 = n := by
  by_cases h0 : n = 0
  · subst h0; decide
  · have := parseDigits_rev_map (digitsRev n) 0 (fun d hd => digitsRevFuel_lt10 _ _ _ hd)
    simp only [jsStringOfNat, h0, if_false]
    rw [this]
    unfold digitsRev
    rw [digitsRevFuel_sound n n le_rfl]
    simp

theorem jsStringOfNat_inj {a b : Nat} (h : jsStringOfNat a = jsStringOfNat b) : a = b := by
  have := parseDigits_jsStringOfNat a
  rw [h, parseDigits_jsStringOfNat] at this
  omega

theorem jsStringOfNat_all_digits (n : Nat) :
    ∀ c ∈ jsStringOfNat n, isDigitCh c = true := by
  intro c hc
  by_cases h0 : n = 0
  · subst h0; simp [jsStringOfNat] at hc; subst hc; decide
  · simp only [jsStringOfNat, h0, if_false, List.mem_map, List.mem_reverse] at hc
    obtain ⟨d, hd, rfl⟩ := hc
    exact digitCharOf_isDigit (digitsRevFuel_lt10 _ _ _ hd)

theorem jsStringOfNat_ne_nil (n : Nat) : jsStringOfNat n ≠ [] := by
  by_cases h0 : n = 0
  · subst h0; decide
  · simp only [jsStringOfNat, h0, if_false]
    intro h
    have := digitsRevFuel_ne_nil h0 (le_refl n)
    simp only [List.map_eq_nil_iff, List.reverse_eq_nil_iff] at h
    exact this h

theorem jsStringOfNat_len_le {n k : Nat} (hk : 1 ≤ k) (h : n < 10 ^ k) :
    (jsStringOfNat n).length ≤ k := by
  by_cases h0 : n = 0
  · subst h0; simp [jsStringOfNat]; omega
  · simp only [jsStringOfNat, h0, if_false, List.length_map, List.length_reverse]
    exact digitsRevFuel_len_le n n k h

theorem takeWhile_eq_of_all {p : Char → Bool} :
    ∀ {l : List Char}, (∀ c ∈ l, p c = true) → l.takeWhile p = l := by
  intro l
  induction l with
  | nil => intro _; rfl
  | cons c cs ih =>
    intro h
    rw [List.takeWhile_cons_of_pos (h c (by simp))]
    rw [ih (fun d hd => h d (by simp [hd]))]

theorem takeWhile_append_all {p : Char → Bool} :
    ∀ {l₁ l₂ : List Char}, (∀ c ∈ l₁, p c = true) →
      (l₁ ++ l₂).takeWhile p = l₁ ++ l₂.takeWhile p := by
  intro l₁
  induction l₁ with
  | nil => intro l₂ _; rfl
  | cons c cs ih =>
    intro l₂ h
    rw [List.cons_append, List.takeWhile_cons_of_pos (h c (by simp))]
    rw [ih (fun d hd => h d (by simp [hd]))]
    rfl

theorem digit_not_space {c : Char} (h : isDigitCh c = true) : isSpaceCh c = false := by
  simp [isDigitCh] at h
  simp [isSpaceCh]
  omega

theorem digit_ne_minus {c : Char} (h : isDigitCh c = true) : c ≠ '-' := by
  intro he
  subst he
  simp [isDigitCh] at h

theorem digit_ne_plus {c : Char} (h : isDigitCh c = true) : c ≠ '+' := by
  intro he
  subst he
  simp [isDigitCh] at h

/-- Round trip: `parseInt(String(n), 10) = n` for a non-negative integer. -/
theorem jsParseInt_jsStringOfNat (n : Nat) :
    jsParseInt (String.mk (jsStringOfNat n)) = some (n : Int) := by
  have hall := jsStringOfNat_all_digits n
  have hne := jsStringOfNat_ne_nil n
  have hval := parseDigits_jsStringOfNat n
  rcases hcs : jsStringOfNat n with _ | ⟨c, cs⟩
  · exact absurd hcs hne
  · rw [hcs] at hall hval
    have hc : isDigitCh c = true := hall c (by simp)
    have hdrop : (String.mk (c :: cs)).data.dropWhile isSpaceCh = c :: cs := by
      show (c :: cs).dropWhile isSpaceCh = c :: cs
      rw [List.dropWhile_cons_of_neg (by simp [digit_not_space hc])]
    unfold jsParseInt
    rw [hdrop]
    simp only [digit_ne_minus hc, digit_ne_plus hc, if_false]
    unfold jsParseIntTail
    have htake : (c :: cs).takeWhile isDigitCh = c :: cs :=
      takeWhile_eq_of_all (fun d hd => hall d hd)
    simp only [htake]
    rw [if_neg (by simp)]
    simp [hval]

/-! ## Trailing-digit extraction (uniqueness of generated identifiers) -/

/-- The trailing run of decimal digits of a character list, reversed. -/
def trailingDigitsRev (l : List Char) : List Char := l.reverse.takeWhile isDigitCh

theorem trailingDigitsRev_underscore (P D : List Char)
    (hD : ∀ c ∈ D, isDigitCh c = true) :
    trailingDigitsRev (P ++ '_' :: D) = D.reverse := by
  unfold trailingDigitsRev
  rw [List.reverse_append, List.reverse_cons, List.append_assoc]
  rw [takeWhile_append_all (fun c hc => hD c (List.mem_reverse.mp hc))]
  rw [List.singleton_append, List.takeWhile_cons_of_neg (by decide)]
  simp

theorem drop_append_of_le {l₁ l₂ : List Char} {k : Nat} (h : k ≤ l₁.length) :
    (l₁ ++ l₂).drop k = l₁.drop k ++ l₂ := by
  induction l₁ generalizing k with
  | nil => simp at h; simp [h]
  | cons c cs ih =>
    cases k with
    | zero => simp
    | succ k => simp only [List.cons_append, List.drop_succ_cons]; exact ih (by simpa using h)

theorem lastN_append {l x : List Char} {n : Nat} (h : x.length ≤ n) :
    lastN n (l ++ x) = lastN (n - x.length) l ++ x := by
  unfold lastN
  rw [List.length_append]
  have hk : l.length + x.length - n ≤ l.length := by omega
  rw [drop_append_of_le hk]
  congr 2
  omega

/-! ## `src/auth/bluesky.ts` — singleton session manager -/

/-- Authentication configuration read from the environment
(`BlueskyAuthConfig` in `src/auth/bluesky.ts`). -/
structure BlueskyAuthConfig where
  identifier : String
  password : String
  service : Option String
  deriving DecidableEq

/-- An authenticated Bluesky session held by an agent (opaque; only its
presence and DID are observed by the code under verification). -/
structure Session where
  did : String
  deriving DecidableEq

/-- An `AtpAgent`: its service URL and (after login) its session. -/
structure AtpAgent where
  service : String
  session : Option Session
  deriving DecidableEq

/-- The process environment variables read by `getAuthConfigFromEnv`. -/
structure Env where
  identifier : Option String
  password : Option String
  service : Option String
  deriving DecidableEq

/-- `getAuthConfigFromEnv` — reads `BLUESKY_IDENTIFIER` / `BLUESKY_PASSWORD` /
`BLUESKY_SERVICE`; returns `null` when identifier or password is falsy
(missing or empty). -/
def getAuthConfigFromEnv (e : Env) : Option BlueskyAuthConfig :=
  match e.identifier, e.password with
  | some i, some p =>
    if i = "" ∨ p = "" then none
    else some { identifier := i, password := p, service := e.service }
  | _, _ => none

/-- Error-message classification performed by `initializeBlueskyAuth`'s catch
block; `none` models a thrown value with an undefined `message`. -/
def classifyAuthError (m : Option String) : String :=
  if optContains m "Invalid identifier or password" then
    "Invalid Bluesky credentials. Please check your identifier and password."
  else if optContains m "Network Error" then
    "Network error connecting to Bluesky. Please check your internet connection."
  else if optContains m "Rate limit" then
    "Rate limited by Bluesky. Please try again later."
  else
    "Authentication failed: " ++ (match m with | some s => s | none => "Unknown error")

/-- `initializeBlueskyAuth(config)` — the state is the module-level
`globalAgent`; the network login outcome is the explicit `loginResult`
parameter (`.ok` carries the session the provider established, `.error` the
thrown error's message).  Returns the call's result together with the new
value of `globalAgent`. -/
def initializeBlueskyAuth (st : Option AtpAgent) (config : BlueskyAuthConfig)
    (loginResult : Except (Option String) Session) :
    Except String AtpAgent × Option AtpAgent :=
  match st with
  | some agent => (.ok agent, some agent)
  | none =>
    match loginResult with
    | .ok s =>
      let agent : AtpAgent := { service := jsOrStr config.service "https://bsky.social",
                                session := some s }
      (.ok agent, some agent)
    | .error m => (.error (classifyAuthError m), none)

/-- `getAuthenticatedAgent()` — returns the stored agent or throws. -/
def getAuthenticatedAgent (st : Option AtpAgent) : Except String AtpAgent :=
  match st with
  | none => .error "Not authenticated with Bluesky. Please initialize authentication first."
  | some a => .ok a

/-- `isAuthenticated()`. -/
def isAuthenticated (st : Option AtpAgent) : Bool :=
  match st with
  | none => false
  | some a => a.session.isSome

/-- `clearAuthentication()`. -/
def clearAuthentication (_ : Option AtpAgent) : Option AtpAgent := none

/-- The shared `try { await initializeBlueskyAuth(cfg); const agent =
getAuthenticatedAgent(); ... await <api call> }` pattern of the three
handlers: a login failure or the API call's own failure surface as the caught
error (`none` = a thrown value without a message). -/
def liveAttempt {α : Type} (st : Option AtpAgent) (cfg : BlueskyAuthConfig)
    (loginResult : Except (Option String) Session)
    (apiResult : Except (Option String) α) : Except (Option String) α :=
  match initializeBlueskyAuth st cfg loginResult with
  | (.error msg, _) => .error (some msg)
  | (.ok _, st') =>
    match getAuthenticatedAgent st' with
    | .error msg => .error (some msg)
    | .ok _ => apiResult

/-! ## `src/mocks/responses.ts` — synthetic post generator -/

/-- The fixed synthetic author identity. -/
structure MockAuthor where
  did : String
  handle : String
  displayName : String
  deriving DecidableEq

/-- A `MockPostResponse` record. -/
structure MockPostResponse where
  uri : String
  cid : String
  text : String
  media : List String
  createdAt : String
  author : MockAuthor
  replyCount : Nat
  repostCount : Nat
  likeCount : Nat
  deriving DecidableEq

/-- The template-literal `mock_post_<timestamp>_<counter>` record key. -/
def mockPostIdChars (timestamp : Int) (counter : Nat) : List Char :=
  "mock_post_".data ++ (jsStringOfInt timestamp ++ '_' :: jsStringOfNat counter)

/-- `generateMockPostResponse(text, media?)` — `timestamp` is the `Date.now()`
reading, `postCounter` the module-level counter before the call, `nowIso` the
`new Date().toISOString()` reading.  Returns the record and the incremented
counter. -/
def generateMockPostResponse (text : String) (media : Option (List String))
    (timestamp : Int) (postCounter : Nat) (nowIso : String) :
    MockPostResponse × Nat :=
  let counter := postCounter + 1
  let postId := mockPostIdChars timestamp counter
  ({ uri := String.mk ("at://did:plc:mockuser123/app.bsky.feed.post/".data ++ postId),
     cid := String.mk ("bafyrei".data ++ padStartZeros 20 (lastN 20 postId)),
     text := text,
     media := media.getD [],
     createdAt := nowIso,
     author := { did := "did:plc:mockuser123", handle := "mockuser.bsky.social",
                 displayName := "Mock User" },
     replyCount := 0, repostCount := 0, likeCount := 0 }, counter)

/-- `formatPostSuccessMessage(response)` — `createdLocale` is the
`new Date(response.createdAt).toLocaleString()` rendering. -/
def formatPostSuccessMessage (r : MockPostResponse) (createdLocale : String) : String :=
  let mediaInfo := if r.media.length > 0
    then "\nMedia attachments: " ++ String.mk (jsStringOfNat r.media.length)
    else ""
  "Post created successfully! 🎉\nPost URI: " ++ r.uri ++
    "\nAuthor: @" ++ r.author.handle ++
    "\nText: \"" ++ r.text ++ "\"" ++ mediaInfo ++
    "\nCreated: " ++ createdLocale

/-! ## Timeline resource (`src/resources/timeline.ts`, live-API revision) -/

/-- A post of the generated mock timeline.  `createdAt`/`indexedAt` hold the
epoch-milliseconds value whose ISO-8601 rendering the code stores (the
rendering is strictly monotone in the value); `none` models NaN. -/
structure MockPost where
  uri : String
  cid : String
  authorDid : String
  authorHandle : String
  authorDisplayName : String
  text : String
  createdAt : Option Int
  replyCount : Nat
  repostCount : Nat
  likeCount : Nat
  indexedAt : Option Int
  deriving DecidableEq

/-- An item of the provider's `getAuthorFeed` response (`item.post`), with the
optional fields the mapping code defaults. -/
structure LiveFeedItem where
  uri : String
  cid : String
  authorDid : String
  authorHandle : String
  authorDisplayName : Option String
  record : String
  replyCount : Option Int
  repostCount : Option Int
  likeCount : Option Int
  indexedAt : String
  deriving DecidableEq

/-- The provider's `getAuthorFeed` page (`response.data`). -/
structure LiveFeed where
  items : List LiveFeedItem
  cursor : Option String
  deriving DecidableEq

/-- A remapped live timeline post. -/
structure LivePost where
  uri : String
  cid : String
  authorDid : String
  authorHandle : String
  authorDisplayName : String
  record : String
  replyCount : Int
  repostCount : Int
  likeCount : Int
  indexedAt : String
  deriving DecidableEq

/-- The timeline object the resource serialises: feed, cursor, total and the
`metadata` fields (`note` / `fallback_reason` are the keys the handler adds by
object spread; they are absent — `none` — in the object
`generateMockTimeline` itself returns). -/
structure TimelineData (P : Type) where
  feed : List P
  cursor : Option String
  total : Int
  source : String
  generatedAt : String
  user : String
  queryLimit : Int
  queryCursor : Option String
  note : Option String
  fallbackReason : Option String

/-- Ambient effects of one `generateMockTimeline` call: the `Date.now()`
reading at loop iteration `i`, the `toLocaleString` rendering, the three
`Math.random()`-derived counts per iteration, and the
`new Date().toISOString()` reading for `metadata.generated_at`. -/
structure TimelineGenEnv where
  clock : Nat → Int
  localeOf : Option Int → String
  randReply : Nat → Nat
  randRepost : Nat → Nat
  randLike : Nat → Nat
  generatedAt : String

/-- One post built by the loop body of `generateMockTimeline`. -/
def mockTimelinePost (g : TimelineGenEnv) (startIndex : Option Int) (i : Nat) : MockPost :=
  let postIndex := jadd startIndex (some (i : Int))
  let timestamp := jsub (some (g.clock i)) (jmul postIndex (some 60000))
  let postId := "mock_timeline_post_".data ++ (jstrOpt timestamp ++ '_' :: jstrOpt postIndex)
  { uri := String.mk ("at://did:plc:mockuser123/app.bsky.feed.post/".data ++ postId),
    cid := String.mk ("bafyrei".data ++ padStartZeros 20 (lastN 20 postId)),
    authorDid := "did:plc:mockuser123",
    authorHandle := "mockuser.bsky.social",
    authorDisplayName := "Mock User",
    text := String.mk ("Mock timeline post #".data ++ jstrOpt (jadd postIndex (some 1)))
      ++ " - " ++ g.localeOf timestamp,
    createdAt := timestamp,
    replyCount := g.randReply i,
    repostCount := g.randRepost i,
    likeCount := g.randLike i,
    indexedAt := timestamp }

/-- `generateMockTimeline(limit = 20, cursor?)`. -/
def generateMockTimeline (limit : Int) (cursor : Option String)
    (g : TimelineGenEnv) : TimelineData MockPost :=
  let startIndex : Option Int :=
    if jsTruthyStr cursor then jsParseInt (cursor.getD "") else some 0
  let posts := (List.range limit.toNat).map (mockTimelinePost g startIndex)
  let nextCursor : Option String :=
    if (posts.length : Int) = limit ∧ 0 < limit
    then some (String.mk (jstrOpt (jadd startIndex (some limit))))
    else none
  { feed := posts,
    cursor := nextCursor,
    total := posts.length,
    source := "mock",
    generatedAt := g.generatedAt,
    user := "mockuser.bsky.social",
    queryLimit := limit,
    queryCursor := jsOrNone cursor,
    note := none,
    fallbackReason := none }

/-- The live-path remapping of the provider feed performed by the handler. -/
def mapLiveTimeline (cfg : BlueskyAuthConfig) (fr : LiveFeed)
    (parsedLimit : Int) (parsedCursor : Option String) (nowIso : String) :
    TimelineData LivePost :=
  { feed := fr.items.map (fun item =>
      { uri := item.uri,
        cid := item.cid,
        authorDid := item.authorDid,
        authorHandle := item.authorHandle,
        authorDisplayName := jsOrStr item.authorDisplayName item.authorHandle,
        record := item.record,
        replyCount := jsOrZero item.replyCount,
        repostCount := jsOrZero item.repostCount,
        likeCount := jsOrZero item.likeCount,
        indexedAt := item.indexedAt }),
    cursor := fr.cursor,
    total := fr.items.length,
    source := "real_api",
    generatedAt := nowIso,
    user := cfg.identifier,
    queryLimit := parsedLimit,
    queryCursor := parsedCursor,
    note := none,
    fallbackReason := none }

/-- `limit ? parseInt(limit, 10) : 20` on the raw URI-template parameter. -/
def parseLimitParam (limit : Option String) : Option Int :=
  if jsTruthyStr limit then jsParseInt (limit.getD "") else some 20

/-- The zod `z.number().min(1).max(100)` check on the parsed limit (NaN fails). -/
def limitSchemaOk (parsed : Option Int) : Bool :=
  match parsed with
  | none => false
  | some n => decide (1 ≤ n ∧ n ≤ 100)

/-- The three shapes of a `bluesky://timeline` response: a live page, a mock
page, or the catch branch for a zod parse failure (its JSON error message is
not modelled). -/
inductive TimelineOutcome where
  | live (t : TimelineData LivePost)
  | mock (t : TimelineData MockPost)
  | parseError
  deriving Nonempty

/-- The `bluesky://timeline` resource handler (revision with the live
`getAuthorFeed` call).  `fr` is the provider call's outcome, `nowIso` the
`generated_at` reading of the live branch. -/
def blueskyTimelineHandler (limit cursor : Option String) (env : Env)
    (st : Option AtpAgent) (loginResult : Except (Option String) Session)
    (fr : Except (Option String) LiveFeed) (g : TimelineGenEnv) (nowIso : String) :
    TimelineOutcome :=
  if limitSchemaOk (parseLimitParam limit) then
    match getAuthConfigFromEnv env with
    | some cfg =>
      match liveAttempt st cfg loginResult fr with
      | .ok feed =>
        .live (mapLiveTimeline cfg feed ((parseLimitParam limit).getD 20)
          (jsOrNone cursor) nowIso)
      | .error m =>
        .mock { generateMockTimeline ((parseLimitParam limit).getD 20) (jsOrNone cursor) g
                  with fallbackReason := some ("API error: " ++ m.getD "Unknown error") }
    | none =>
      .mock { generateMockTimeline ((parseLimitParam limit).getD 20) (jsOrNone cursor) g
                with note := some ("Mock response used. Set BLUESKY_IDENTIFIER and "
                  ++ "BLUESKY_PASSWORD to use real API.") }
  else .parseError

/-! ## Post tools (`src/tools/post.ts`) -/

/-- The `{ uri, cid }` result of a live `agent.post` call. -/
structure PostRef where
  uri : String
  cid : String
  deriving DecidableEq

/-- An MCP tool response: its text content and the `isError` flag (absent in
the source means `false`). -/
structure ToolResponse where
  text : String
  isError : Bool
  deriving DecidableEq

/-- The `bluesky_post` success message of the live branch. -/
def livePostSuccessText (r : PostRef) (text : String) (media : Option (List String))
    (nowLocale : String) : String :=
  "Post created successfully! 🎉\n\nPost URI: " ++ r.uri ++
    "\nPost CID: " ++ r.cid ++
    "\nText: \"" ++ text ++ "\"" ++
    "\nCreated: " ++ nowLocale ++ "\n" ++
    (match media with
     | some m => if m.length > 0
         then "\nMedia attachments: " ++ String.mk (jsStringOfNat m.length)
         else ""
     | none => "")

/-- The missing-credentials error text of `bluesky_post`. -/
def createMissingCredsMsg : String :=
  "Error creating post: Missing Bluesky credentials. Please set BLUESKY_IDENTIFIER "
    ++ "and BLUESKY_PASSWORD environment variables."

/-- The `bluesky_post` handler of the revision that also registers
`bluesky_delete_post`: a live failure or missing credentials produce an error
response (`isError: true`); there is no mock fallback in this revision. -/
def blueskyPostHandler (text : String) (media : Option (List String)) (env : Env)
    (st : Option AtpAgent) (loginResult : Except (Option String) Session)
    (postResult : Except (Option String) PostRef) (nowLocale : String) : ToolResponse :=
  match getAuthConfigFromEnv env with
  | some cfg =>
    match liveAttempt st cfg loginResult postResult with
    | .ok r => { text := livePostSuccessText r text media nowLocale, isError := false }
    | .error m =>
      { text := "Error creating post: " ++ m.getD "Unknown error", isError := true }
  | none => { text := createMissingCredsMsg, isError := true }

/-- The `bluesky_post` handler of the earlier revision (the `src/tools/post.ts`
without the delete tool): a live failure or missing credentials fall back to
`generateMockPostResponse`.  `timestamp`/`postCounter`/`nowIso` feed the mock
generator; returns the response and the new counter. -/
def blueskyPostHandlerMockFallback (text : String) (media : Option (List String))
    (env : Env) (st : Option AtpAgent) (loginResult : Except (Option String) Session)
    (postResult : Except (Option String) PostRef) (timestamp : Int) (postCounter : Nat)
    (nowIso nowLocale : String) : ToolResponse × Nat :=
  match getAuthConfigFromEnv env with
  | some cfg =>
    match liveAttempt st cfg loginResult postResult with
    | .ok r =>
      ({ text := livePostSuccessText r text media nowLocale, isError := false }, postCounter)
    | .error m =>
      let mock := generateMockPostResponse text media timestamp postCounter nowIso
      ({ text := formatPostSuccessMessage mock.1 nowLocale ++
           "\n\n⚠️ Note: Used mock response due to API error: " ++ m.getD "Unknown error",
         isError := false }, mock.2)
  | none =>
    let mock := generateMockPostResponse text media timestamp postCounter nowIso
    ({ text := formatPostSuccessMessage mock.1 nowLocale ++
         "\n\n⚠️ Note: Mock response used. Set BLUESKY_IDENTIFIER and BLUESKY_PASSWORD "
         ++ "to use real API.",
       isError := false }, mock.2)

/-! ### `bluesky_delete_post` -/

/-- The anchored AT-URI regex of the delete tool's zod refinement:
`at://did:[a-z0-9:]+/app\.bsky\.feed\.post/[a-zA-Z0-9]+`.  The two character
classes exclude `/`, so the match decomposes uniquely: literal prefix, a
nonempty DID run up to the first `/`, the literal collection path, a nonempty
alphanumeric record key. -/
def atUriTest (s : String) : Bool :=
  match stripPfx "at://did:".data s.data with
  | none => false
  | some rest =>
    let did := rest.takeWhile isDidCh
    let rest2 := rest.dropWhile isDidCh
    if did.isEmpty then false
    else
      match stripPfx "/app.bsky.feed.post/".data rest2 with
      | none => false
      | some rkey => !rkey.isEmpty && rkey.all isRkeyCh

/-- The full zod input schema of `bluesky_delete_post`:
`z.string().min(1).refine(atUriRegex)`. -/
def deletePostValidate (uri : String) : Bool :=
  decide (1 ≤ uri.length) && atUriTest uri

/-- The missing-credentials error text of `bluesky_delete_post`. -/
def deleteMissingCredsMsg : String :=
  "Error deleting post: Missing Bluesky credentials. Please set BLUESKY_IDENTIFIER "
    ++ "and BLUESKY_PASSWORD environment variables."

/-- The not-found classification response. -/
def deleteNotFoundResp (uri : String) : ToolResponse :=
  { text := "Error deleting post: Post not found. The post may have already been "
      ++ "deleted or the URI is invalid.\n\nURI: " ++ uri,
    isError := true }

/-- The unauthorized classification response. -/
def deleteUnauthorizedResp (uri : String) : ToolResponse :=
  { text := "Error deleting post: You are not authorized to delete this post. "
      ++ "You can only delete your own posts.\n\nURI: " ++ uri,
    isError := true }

/-- The verbatim-passthrough classification response. -/
def deleteOtherResp (m : Option String) (uri : String) : ToolResponse :=
  { text := "Error deleting post: " ++ m.getD "Unknown error" ++ "\n\nURI: " ++ uri,
    isError := true }

/-- The catch-block classification of a failed live delete (`errorMessage`
abbreviates `m.getD "Unknown error"`, the `apiError instanceof Error ?
apiError.message : 'Unknown error'` computation). -/
def classifyDeleteError (m : Option String) (uri : String) : ToolResponse :=
  if strContains (m.getD "Unknown error") "not found"
      || strContains (m.getD "Unknown error") "404"
      || strContains (m.getD "Unknown error") "Could not find repo"
      || strContains (m.getD "Unknown error") "Could not find record" then
    deleteNotFoundResp uri
  else if strContains (m.getD "Unknown error") "unauthorized"
      || strContains (m.getD "Unknown error") "forbidden" then
    deleteUnauthorizedResp uri
  else
    deleteOtherResp m uri

/-- Outcome of one `bluesky_delete_post` invocation: the zod schema rejection
(before the handler body runs) or the handler's tool response. -/
inductive DeleteOutcome where
  | validationError
  | response (r : ToolResponse)
  deriving DecidableEq

/-- One `bluesky_delete_post` invocation, also recording whether any network
activity (login or delete) was attempted. -/
structure DeleteCall where
  outcome : DeleteOutcome
  networkAttempted : Bool
  deriving DecidableEq

/-- The `bluesky_delete_post` tool: zod validation, then the handler with its
live-call-or-categorised-error protocol (no synthetic fallback).  `dr` is the
`agent.deletePost` outcome, `nowLocale` the success-timestamp rendering. -/
def blueskyDeletePostHandler (postUri : String) (env : Env)
    (st : Option AtpAgent) (loginResult : Except (Option String) Session)
    (dr : Except (Option String) Unit) (nowLocale : String) : DeleteCall :=
  if deletePostValidate postUri = false then
    { outcome := .validationError, networkAttempted := false }
  else
    match getAuthConfigFromEnv env with
    | some cfg =>
      match liveAttempt st cfg loginResult dr with
      | .ok _ =>
        { outcome := .response
            { text := "Post deleted successfully! 🗑️\n\nDeleted post URI: " ++ postUri
                ++ "\nDeleted at: " ++ nowLocale,
              isError := false },
          networkAttempted := true }
      | .error m =>
        { outcome := .response (classifyDeleteError m postUri), networkAttempted := true }
    | none =>
      { outcome := .response { text := deleteMissingCredsMsg, isError := true },
        networkAttempted := false }

/-! ## Helper lemmas about the generated identifiers and substring search -/

theorem isPrefixCh_append_self : ∀ (n b : List Char), isPrefixCh n (n ++ b) = true := by
  intro n
  induction n with
  | nil => intro b; rfl
  | cons c cs ih => intro b; simp [isPrefixCh, ih]

theorem containsCh_nil_needle : ∀ l : List Char, containsCh [] l = true := by
  intro l
  induction l with
  | nil => rfl
  | cons c cs ih =>
    unfold containsCh
    rw [ih]
    simp [isPrefixCh]

theorem containsCh_self_append (n b : List Char) : containsCh n (n ++ b) = true := by
  cases n with
  | nil => exact containsCh_nil_needle b
  | cons c cs =>
    rw [List.cons_append]
    unfold containsCh
    rw [← List.cons_append, isPrefixCh_append_self]
    rfl

theorem containsCh_append_right (n a b : List Char) (h : containsCh n b = true) :
    containsCh n (a ++ b) = true := by
  induction a with
  | nil => simpa using h
  | cons c cs ih =>
    rw [List.cons_append]
    unfold containsCh
    rw [ih]
    simp

/-- Trailing-digit extraction through the last underscore determines the
counter rendered after it. -/
theorem mockUri_trailing (t : Int) (c : Nat) :
    trailingDigitsRev ("at://did:plc:mockuser123/app.bsky.feed.post/".data
        ++ mockPostIdChars t c)
      = (jsStringOfNat c).reverse := by
  unfold mockPostIdChars
  have h := trailingDigitsRev_underscore
    (("at://did:plc:mockuser123/app.bsky.feed.post/".data ++ "mock_post_".data)
      ++ jsStringOfInt t)
    (jsStringOfNat c) (jsStringOfNat_all_digits c)
  simpa [List.append_assoc] using h

theorem jsStringOfNat_len_pos (n : Nat) : 0 < (jsStringOfNat n).length := by
  have := jsStringOfNat_ne_nil n
  cases h : jsStringOfNat n with
  | nil => exact absurd h this
  | cons c cs => simp

/-- Trailing-digit extraction from the generated cid, valid while the counter
has at most 20 decimal digits (the `slice(-20)` window keeps the whole counter
and, when the counter is shorter, the underscore before it). -/
theorem mockCid_trailing (t : Int) (c : Nat) (hc : c < 10 ^ 20) :
    trailingDigitsRev ("bafyrei".data
        ++ padStartZeros 20 (lastN 20 (mockPostIdChars t c)))
      = (jsStringOfNat c).reverse := by
  have hlen : (jsStringOfNat c).length ≤ 20 := jsStringOfNat_len_le (by omega) hc
  have hpos := jsStringOfNat_len_pos c
  rcases Nat.lt_or_ge (jsStringOfNat c).length 20 with hlt | hge
  · -- counter shorter than the window: the underscore before it survives
    have hx : ('_' :: jsStringOfNat c).length ≤ 20 := by simp; omega
    have e : mockPostIdChars t c
        = ("mock_post_".data ++ jsStringOfInt t) ++ '_' :: jsStringOfNat c := by
      unfold mockPostIdChars
      simp [List.append_assoc]
    have h1 : lastN 20 (mockPostIdChars t c)
        = lastN (20 - ('_' :: jsStringOfNat c).length)
            ("mock_post_".data ++ jsStringOfInt t) ++ '_' :: jsStringOfNat c := by
      rw [e, lastN_append hx]
    rw [h1]
    unfold padStartZeros
    rw [show ∀ (R S Q D : List Char),
        R ++ (S ++ (Q ++ '_' :: D)) = ((R ++ S) ++ Q) ++ '_' :: D from
      fun R S Q D => by simp [List.append_assoc]]
    exact trailingDigitsRev_underscore _ _ (jsStringOfNat_all_digits c)
  · -- counter exactly 20 characters: the window is the counter itself
    have h20 : (jsStringOfNat c).length = 20 := by omega
    have h1 : lastN 20 (mockPostIdChars t c) = jsStringOfNat c := by
      have hx : (jsStringOfNat c).length ≤ 20 := by omega
      have e : mockPostIdChars t c
          = ("mock_post_".data ++ (jsStringOfInt t ++ ['_'])) ++ jsStringOfNat c := by
        unfold mockPostIdChars
        simp [List.append_assoc]
      rw [e, lastN_append hx, h20]
      simp [lastN, List.drop_length]
    rw [h1]
    unfold padStartZeros
    rw [h20]
    simp only [Nat.sub_self, List.replicate_zero, List.nil_append]
    unfold trailingDigitsRev
    rw [List.reverse_append]
    rw [takeWhile_append_all (fun d hd =>
      jsStringOfNat_all_digits c d (List.mem_reverse.mp hd))]
    rw [show ("bafyrei".data.reverse.takeWhile isDigitCh) = [] from by decide]
    simp

/-! ## Claim theorems -/

/-- Claim C4 (confirmed): the stored global session is non-null only if a
prior login call succeeded — `initializeBlueskyAuth` stores the agent only
after a successful login, and on any login failure it raises the categorized
error while leaving the stored session unchanged (still null). -/
theorem auth_state_only_set_on_success :
    ∀ (cfg : BlueskyAuthConfig) (lr : Except (Option String) Session),
      ((initializeBlueskyAuth none cfg lr).2 ≠ none → ∃ s, lr = .ok s) ∧
      (∀ m, lr = .error m →
        initializeBlueskyAuth none cfg lr = (.error (classifyAuthError m), none)) := by
  intro cfg lr
  constructor
  · intro h
    cases lr with
    | ok s => exact ⟨s, rfl⟩
    | error m => simp [initializeBlueskyAuth] at h
  · intro m hm
    subst hm
    rfl

/-- Witness for C4 at a concrete failing login. -/
theorem auth_state_only_set_on_success_witness :
    initializeBlueskyAuth none
        { identifier := "alice.bsky.social", password := "pw", service := none }
        (.error (some "Network Error: connection refused"))
      = (.error ("Network error connecting to Bluesky. "
          ++ "Please check your internet connection."), none) := by
  have h := (auth_state_only_set_on_success
      { identifier := "alice.bsky.social", password := "pw", service := none }
      (.error (some "Network Error: connection refused"))).2
      (some "Network Error: connection refused") rfl
  rw [h]
  rfl

/-- Claim C5 (confirmed): if a session already exists, `initializeBlueskyAuth`
returns it unchanged for any credentials and any login behaviour; hence a
second call after a successful one returns the same session and state. -/
theorem ensure_session_idempotent :
    ∀ (a : AtpAgent) (cfg : BlueskyAuthConfig) (lr : Except (Option String) Session),
      initializeBlueskyAuth (some a) cfg lr = (.ok a, some a) ∧
      (∀ (st st1 : Option AtpAgent) (cfg1 cfg2 : BlueskyAuthConfig)
          (lr1 lr2 : Except (Option String) Session) (b : AtpAgent),
        initializeBlueskyAuth st cfg1 lr1 = (.ok b, st1) →
        initializeBlueskyAuth st1 cfg2 lr2 = (.ok b, st1)) := by
  intro a cfg lr
  constructor
  · rfl
  · intro st st1 cfg1 cfg2 lr1 lr2 b h
    have hst1 : st1 = some b := by
      cases st with
      | some x =>
        simp only [initializeBlueskyAuth, Prod.mk.injEq] at h
        obtain ⟨hb, hs⟩ := h
        cases hb
        exact hs.symm
      | none =>
        cases lr1 with
        | ok s =>
          simp only [initializeBlueskyAuth, Prod.mk.injEq] at h
          obtain ⟨hb, hs⟩ := h
          cases hb
          exact hs.symm
        | error m => simp [initializeBlueskyAuth] at h
    subst hst1
    rfl

/-- A concrete post-login agent used by witnesses. -/
def sampleAgent : AtpAgent :=
  { service := "https://bsky.social", session := some { did := "did:plc:abc" } }

/-- A concrete credentials record used by witnesses. -/
def sampleCfg : BlueskyAuthConfig :=
  { identifier := "first.user", password := "pw1", service := none }

/-- A second, different concrete credentials record used by witnesses. -/
def sampleCfg2 : BlueskyAuthConfig :=
  { identifier := "someone.else", password := "other", service := some "https://x" }

/-- Witness for C5: a second call with different credentials and a failing
login behaviour still returns the session established by the first call. -/
theorem ensure_session_idempotent_witness :
    initializeBlueskyAuth (some sampleAgent) sampleCfg2 (.error (some "Rate limit"))
      = (.ok sampleAgent, some sampleAgent) := by
  exact (ensure_session_idempotent sampleAgent sampleCfg (.ok { did := "d" })).2
    none (some sampleAgent) sampleCfg sampleCfg2
    (.ok { did := "did:plc:abc" }) (.error (some "Rate limit"))
    sampleAgent rfl

/-- Claim C9 (confirmed): `generateMockPostResponse` echoes the text and media
(defaulting omitted media to the empty sequence), carries the fixed synthetic
author identity, and zeroes all interaction counts. -/
theorem mock_post_round_trip :
    ∀ (text : String) (media : Option (List String)) (t : Int) (c : Nat) (iso : String),
      1 ≤ text.length → text.length ≤ 300 →
      ((generateMockPostResponse text media t c iso).1.text = text ∧
       (∀ m, media = some m → (generateMockPostResponse text media t c iso).1.media = m) ∧
       (media = none → (generateMockPostResponse text media t c iso).1.media = []) ∧
       (generateMockPostResponse text media t c iso).1.author
         = { did := "did:plc:mockuser123", handle := "mockuser.bsky.social",
             displayName := "Mock User" } ∧
       (generateMockPostResponse text media t c iso).1.replyCount = 0 ∧
       (generateMockPostResponse text media t c iso).1.repostCount = 0 ∧
       (generateMockPostResponse text media t c iso).1.likeCount = 0) := by
  intro text media t c iso h1 h2
  refine ⟨rfl, ?_, ?_, rfl, rfl, rfl, rfl⟩
  · intro m hm
    subst hm
    rfl
  · intro hm
    subst hm
    rfl

/-- Witness for C9 at `"hello"` with one media URL. -/
theorem mock_post_round_trip_witness :
    (generateMockPostResponse "hello" (some ["https://example.com/a.jpg"]) 0 0
        "2025-01-01T00:00:00.000Z").1.text = "hello" ∧
    (generateMockPostResponse "hello" (some ["https://example.com/a.jpg"]) 0 0
        "2025-01-01T00:00:00.000Z").1.media = ["https://example.com/a.jpg"] := by
  have h := mock_post_round_trip "hello" (some ["https://example.com/a.jpg"]) 0 0
    "2025-01-01T00:00:00.000Z" (by decide) (by decide)
  exact ⟨h.1, h.2.1 _ rfl⟩

/-- Claim C3 (confirmed): `bluesky_delete_post` rejects an empty or
non-AT-URI-shaped target with a validation failure before any network or
authentication attempt, in particular each of `""`, `"invalid-uri"` and
`"https://example.com/post/1"`. -/
theorem delete_post_validation_rejects :
    ∀ (uri : String) (env : Env) (st : Option AtpAgent)
      (lr : Except (Option String) Session) (dr : Except (Option String) Unit)
      (loc : String),
      (uri = "" ∨ atUriTest uri = false) →
      (blueskyDeletePostHandler uri env st lr dr loc
          = { outcome := .validationError, networkAttempted := false } ∧
       deletePostValidate "" = false ∧
       deletePostValidate "invalid-uri" = false ∧
       deletePostValidate "https://example.com/post/1" = false) := by
  intro uri env st lr dr loc h
  have hv : deletePostValidate uri = false := by
    rcases h with h | h
    · subst h; decide
    · unfold deletePostValidate
      rw [h, Bool.and_false]
  refine ⟨?_, by decide, by decide, by decide⟩
  unfold blueskyDeletePostHandler
  rw [hv]
  rfl

/-- Witness for C3 at the concrete input `"invalid-uri"`. -/
theorem delete_post_validation_rejects_witness :
    blueskyDeletePostHandler "invalid-uri"
        { identifier := none, password := none, service := none }
        none (.error none) (.error none) "1/1/2025, 12:00:00 PM"
      = { outcome := .validationError, networkAttempted := false } :=
  (delete_post_validation_rejects "invalid-uri"
    { identifier := none, password := none, service := none }
    none (.error none) (.error none) "1/1/2025, 12:00:00 PM"
    (Or.inr (by decide))).1

/-- Claim C2 (confirmed): on any input, when credentials are absent or the
live delete fails, `bluesky_delete_post` returns a reported error (the
missing-credentials message, or one of the not-found / unauthorized /
verbatim-passthrough classifications) and never a synthetic success; inputs
failing validation are likewise reported as validation errors. -/
theorem delete_post_never_synthetic :
    ∀ (uri : String) (env : Env) (st : Option AtpAgent)
      (lr : Except (Option String) Session) (dr : Except (Option String) Unit)
      (loc : String),
      (getAuthConfigFromEnv env = none → deletePostValidate uri = true →
        blueskyDeletePostHandler uri env st lr dr loc
          = { outcome := .response { text := deleteMissingCredsMsg, isError := true },
              networkAttempted := false }
          ∧ strContains deleteMissingCredsMsg "Missing Bluesky credentials" = true) ∧
      (∀ cfg m, getAuthConfigFromEnv env = some cfg →
        liveAttempt st cfg lr dr = .error m → deletePostValidate uri = true →
        blueskyDeletePostHandler uri env st lr dr loc
          = { outcome := .response (classifyDeleteError m uri), networkAttempted := true }
          ∧ (classifyDeleteError m uri).isError = true
          ∧ (classifyDeleteError m uri = deleteNotFoundResp uri ∨
             classifyDeleteError m uri = deleteUnauthorizedResp uri ∨
             classifyDeleteError m uri = deleteOtherResp m uri)) ∧
      (deletePostValidate uri = false →
        blueskyDeletePostHandler uri env st lr dr loc
          = { outcome := .validationError, networkAttempted := false }) := by
  intro uri env st lr dr loc
  refine ⟨?_, ?_, ?_⟩
  · intro hcfg hv
    refine ⟨?_, by decide⟩
    unfold blueskyDeletePostHandler
    rw [hv]
    simp only [Bool.true_eq_false, if_false]
    rw [hcfg]
  · intro cfg m hcfg hlive hv
    refine ⟨?_, ?_, ?_⟩
    · unfold blueskyDeletePostHandler
      rw [hv]
      simp only [Bool.true_eq_false, if_false]
      simp only [hcfg, hlive]
    · unfold classifyDeleteError
      split
      · rfl
      · split
        · rfl
        · rfl
    · unfold classifyDeleteError
      split
      · exact Or.inl rfl
      · split
        · exact Or.inr (Or.inl rfl)
        · exact Or.inr (Or.inr rfl)
  · intro hv
    unfold blueskyDeletePostHandler
    rw [hv]
    rfl

/-- Witness for C2: with credentials absent and a well-formed AT-URI, the
delete tool reports the missing-credentials error without attempting the
network, and the message mentions the missing credentials. -/
theorem delete_post_never_synthetic_witness :
    blueskyDeletePostHandler "at://did:plc:abc/app.bsky.feed.post/xyz123"
        { identifier := none, password := none, service := none }
        none (.error none) (.error none) "1/1/2025, 12:00:00 PM"
      = { outcome := .response { text := deleteMissingCredsMsg, isError := true },
          networkAttempted := false } :=
  ((delete_post_never_synthetic "at://did:plc:abc/app.bsky.feed.post/xyz123"
    { identifier := none, password := none, service := none }
    none (.error none) (.error none) "1/1/2025, 12:00:00 PM").1 rfl (by decide)).1

/-- Claim C10 (confirmed): the uri of every record produced by
`generateMockPostResponse` fails `bluesky_delete_post`'s AT-URI validation
(the record key contains underscores, which the regex's `[a-zA-Z0-9]+` class
rejects), so a synthetically created post's uri is always rejected before any
network attempt. -/
theorem mock_uri_rejected_by_delete_validation :
    ∀ (text : String) (media : Option (List String)) (t : Int) (c : Nat) (iso : String)
      (env : Env) (st : Option AtpAgent) (lr : Except (Option String) Session)
      (dr : Except (Option String) Unit) (loc : String),
      atUriTest (generateMockPostResponse text media t c iso).1.uri = false ∧
      blueskyDeletePostHandler (generateMockPostResponse text media t c iso).1.uri
          env st lr dr loc
        = { outcome := .validationError, networkAttempted := false } := by
  intro text media t c iso env st lr dr loc
  have h : atUriTest (generateMockPostResponse text media t c iso).1.uri = false := rfl
  refine ⟨h, ?_⟩
  have hv : deletePostValidate (generateMockPostResponse text media t c iso).1.uri
      = false := by
    unfold deletePostValidate
    rw [h, Bool.and_false]
  unfold blueskyDeletePostHandler
  rw [hv]
  rfl

/-- The note the timeline handler's no-credentials branch adds. -/
def timelineMockNote : String :=
  "Mock response used. Set BLUESKY_IDENTIFIER and BLUESKY_PASSWORD to use real API."

/-- Counterexample to claim C1: in the revision of the post tool that
registers `bluesky_delete_post`, `create_post("hello")` with credentials
absent from the environment does not return a successful synthetic response —
it returns an error response flagged `isError: true`. -/
theorem create_post_no_creds_not_synthetic :
    getAuthConfigFromEnv { identifier := none, password := none, service := none }
      = none ∧
    blueskyPostHandler "hello" none
        { identifier := none, password := none, service := none }
        none (.error none) (.error none) "1/1/2025, 12:00:00 PM"
      = { text := createMissingCredsMsg, isError := true } :=
  ⟨rfl, rfl⟩

/-- Claim C1 as amended (corrected): `get_timeline` degrades to a synthetic
page of the requested size tagged `source = "mock"`, with the no-credentials
note or the triggering error attached, exactly as claimed; but `create_post`
in the revision that registers the delete tool returns a reported error
(`isError: true`) both when credentials are absent and when the live call
fails — only the earlier revision of the create tool falls back to a
synthetic success echoing the submitted text. -/
theorem fallback_policy_amended :
    ∀ (limit cursor : Option String) (env : Env) (st : Option AtpAgent)
      (lr : Except (Option String) Session) (fr : Except (Option String) LiveFeed)
      (g : TimelineGenEnv) (nowIso : String) (n : Int),
      parseLimitParam limit = some n → 1 ≤ n → n ≤ 100 →
      ((getAuthConfigFromEnv env = none →
         blueskyTimelineHandler limit cursor env st lr fr g nowIso
           = .mock { generateMockTimeline n (jsOrNone cursor) g with
                       note := some timelineMockNote }
           ∧ (generateMockTimeline n (jsOrNone cursor) g).source = "mock"
           ∧ (generateMockTimeline n (jsOrNone cursor) g).feed.length = n.toNat) ∧
       (∀ cfg m, getAuthConfigFromEnv env = some cfg →
         liveAttempt st cfg lr fr = .error m →
         blueskyTimelineHandler limit cursor env st lr fr g nowIso
           = .mock { generateMockTimeline n (jsOrNone cursor) g with
                       fallbackReason := some ("API error: " ++ m.getD "Unknown error") }) ∧
       (∀ text media pr loc, getAuthConfigFromEnv env = none →
         blueskyPostHandler text media env st lr pr loc
           = { text := createMissingCredsMsg, isError := true }) ∧
       (∀ text media pr m loc cfg, getAuthConfigFromEnv env = some cfg →
         liveAttempt st cfg lr pr = .error m →
         blueskyPostHandler text media env st lr pr loc
           = { text := "Error creating post: " ++ m.getD "Unknown error",
               isError := true }) ∧
       (∀ text media pr ts pc iso loc, getAuthConfigFromEnv env = none →
         ((blueskyPostHandlerMockFallback text media env st lr pr ts pc iso loc).1.isError
            = false
          ∧ (generateMockPostResponse text media ts pc iso).1.text = text
          ∧ strContains
              (blueskyPostHandlerMockFallback text media env st lr pr ts pc iso loc).1.text
              text = true))) := by
  intro limit cursor env st lr fr g nowIso n hn h1 h100
  have hok : limitSchemaOk (parseLimitParam limit) = true := by
    rw [hn]
    unfold limitSchemaOk
    simp
    omega
  have hget : (parseLimitParam limit).getD 20 = n := by rw [hn]; rfl
  refine ⟨?_, ?_, ?_, ?_, ?_⟩
  · intro hcfg
    refine ⟨?_, rfl, by simp [generateMockTimeline]⟩
    unfold blueskyTimelineHandler
    rw [if_pos hok, hget]
    simp only [hcfg]
    rfl
  · intro cfg m hcfg hlive
    unfold blueskyTimelineHandler
    rw [if_pos hok, hget]
    simp only [hcfg, hlive]
  · intro text media pr loc hcfg
    unfold blueskyPostHandler
    rw [hcfg]
  · intro text media pr m loc cfg hcfg hlive
    unfold blueskyPostHandler
    simp only [hcfg, hlive]
  · intro text media pr ts pc iso loc hcfg
    refine ⟨?_, rfl, ?_⟩
    · unfold blueskyPostHandlerMockFallback
      rw [hcfg]
    · unfold blueskyPostHandlerMockFallback
      rw [hcfg]
      show containsCh text.data _ = true
      simp only [String.data_append]
      unfold formatPostSuccessMessage
      simp only [String.data_append, List.append_assoc]
      apply containsCh_append_right
      apply containsCh_append_right
      apply containsCh_append_right
      apply containsCh_append_right
      apply containsCh_append_right
      exact containsCh_self_append _ _

/-- A concrete generation environment (constant clock) used by witnesses. -/
def sampleGenEnv : TimelineGenEnv :=
  { clock := fun _ => 1735689600000,
    localeOf := fun _ => "1/1/2025, 12:00:00 PM",
    randReply := fun _ => 0,
    randRepost := fun _ => 0,
    randLike := fun _ => 0,
    generatedAt := "2025-01-01T00:00:00.000Z" }

/-- Witness for the amended C1: with credentials absent the timeline resource
answers with the synthetic page of the requested size, note attached. -/
theorem fallback_policy_amended_witness :
    blueskyTimelineHandler (some "5") none
        { identifier := none, password := none, service := none }
        none (.error none) (.error none) sampleGenEnv "2025-01-01T00:00:00.000Z"
      = .mock { generateMockTimeline 5 none sampleGenEnv with
                  note := some timelineMockNote } :=
  ((fallback_policy_amended (some "5") none
    { identifier := none, password := none, service := none }
    none (.error none) (.error none) sampleGenEnv "2025-01-01T00:00:00.000Z" 5
    (by decide) (by decide) (by decide)).1 rfl).1

/-- Claim C6 (confirmed): for limits in `[1,100]` with an absent cursor,
`generateMockTimeline` returns exactly `limit` entries, whose `createdAt`
values follow the newest-first one-minute-per-index formula and strictly
decrease (given that consecutive loop iterations advance the wall clock by
less than the one-minute step), and the result cursor is the decimal string
of `limit`. -/
theorem mock_timeline_page_spec :
    ∀ (limit : Int) (g : TimelineGenEnv),
      1 ≤ limit → limit ≤ 100 →
      (∀ i, g.clock (i + 1) < g.clock i + 60000) →
      ((generateMockTimeline limit none g).feed.length = limit.toNat ∧
       (generateMockTimeline limit none g).feed.map (fun p => p.createdAt)
         = (List.range limit.toNat).map (fun i => some (g.clock i - (i : Int) * 60000)) ∧
       (∀ i j : Nat, i < j → j < limit.toNat →
         g.clock j - (j : Int) * 60000 < g.clock i - (i : Int) * 60000) ∧
       (generateMockTimeline limit none g).cursor
         = some (String.mk (jsStringOfInt limit))) := by
  intro limit g h1 h100 hdrift
  have hstep : ∀ i k : Nat, 0 < k → g.clock (i + k) < g.clock i + (k : Int) * 60000 := by
    intro i k hk
    induction k with
    | zero => omega
    | succ k ih =>
      rcases Nat.eq_zero_or_pos k with hk0 | hkpos
      · subst hk0
        have := hdrift i
        push_cast
        omega
      · have h2 := hdrift (i + k)
        have h3 := ih hkpos
        have he : i + (k + 1) = i + k + 1 := by omega
        rw [he]
        push_cast at h3 ⊢
        omega
  refine ⟨by simp [generateMockTimeline], ?_, ?_, ?_⟩
  · unfold generateMockTimeline
    simp only [jsTruthyStr, if_false]
    rw [List.map_map]
    apply List.map_congr_left
    intro i hi
    simp [mockTimelinePost, jadd, jsub, jmul]
  · intro i j hij hj
    have := hstep i (j - i) (by omega)
    have he : i + (j - i) = j := by omega
    rw [he] at this
    have hc : ((j : Int)) = (i : Int) + ((j - i : Nat) : Int) := by
      omega
    rw [hc]
    nlinarith [this]
  · unfold generateMockTimeline
    simp only [jsTruthyStr, if_false]
    have hlen : (((List.range limit.toNat).map
        (mockTimelinePost g (some 0))).length : Int) = limit := by
      simp
      omega
    rw [if_pos ⟨hlen, by omega⟩]
    simp [jadd, jstrOpt]

/-- Witness for C6 at `limit = 5` with a constant clock. -/
theorem mock_timeline_page_spec_witness :
    (generateMockTimeline 5 none sampleGenEnv).cursor
      = some (String.mk (jsStringOfInt 5)) :=
  (mock_timeline_page_spec 5 sampleGenEnv (by decide) (by decide)
    (fun i => by norm_num [sampleGenEnv])).2.2.2

/-- The cursor produced by one mock-timeline page, as a function of the parsed
start index. -/
theorem generateMockTimeline_cursor (limit : Int) (cursor : Option String)
    (g : TimelineGenEnv) (s : Int)
    (hs : (if jsTruthyStr cursor = true then jsParseInt (cursor.getD "") else some 0)
      = some s)
    (hpos : 0 < limit) :
    (generateMockTimeline limit cursor g).cursor
      = some (String.mk (jsStringOfInt (s + limit))) := by
  unfold generateMockTimeline
  simp only [hs]
  have hlen : (((List.range limit.toNat).map (mockTimelinePost g (some s))).length : Int)
      = limit := by
    simp
    omega
  rw [if_pos ⟨hlen, hpos⟩]
  simp [jadd, jstrOpt]

/-- Claim C7 (confirmed): feeding the cursor returned by
`makeTimelinePage(k, "0")` back into the generator with the same `k` yields a
page whose cursor is the decimal string of `2k`, for every `k > 0`. -/
theorem mock_timeline_pagination_composes :
    ∀ (k : Int), 0 < k → ∀ (g1 g2 : TimelineGenEnv),
      (generateMockTimeline k ((generateMockTimeline k (some "0") g1).cursor) g2).cursor
        = some (String.mk (jsStringOfInt (2 * k))) := by
  intro k hk g1 g2
  have hc1 := generateMockTimeline_cursor k (some "0") g1 0 (by decide) hk
  rw [hc1]
  have hkn : jsStringOfInt k = jsStringOfNat k.toNat := by
    unfold jsStringOfInt
    rw [if_neg (by omega)]
  have hne : String.mk (jsStringOfInt k) ≠ "" := by
    rw [hkn]
    intro h
    exact jsStringOfNat_ne_nil k.toNat (congrArg String.data h)
  have hs2 : (if jsTruthyStr (some (String.mk (jsStringOfInt (0 + k)))) = true
      then jsParseInt ((some (String.mk (jsStringOfInt (0 + k)))).getD "") else some 0)
      = some k := by
    have ht : jsTruthyStr (some (String.mk (jsStringOfInt (0 + k)))) = true := by
      unfold jsTruthyStr
      simp [hne]
    rw [if_pos ht]
    show jsParseInt (String.mk (jsStringOfInt (0 + k))) = some k
    rw [zero_add, hkn, jsParseInt_jsStringOfNat]
    congr 1
    omega
  have hc2 := generateMockTimeline_cursor k (some (String.mk (jsStringOfInt (0 + k))))
    g2 k hs2 hk
  rw [hc2, two_mul]

/-- Witness for C7 at `k = 3`. -/
theorem mock_timeline_pagination_composes_witness :
    (generateMockTimeline 3 ((generateMockTimeline 3 (some "0") sampleGenEnv).cursor)
        sampleGenEnv).cursor
      = some (String.mk (jsStringOfInt (2 * 3))) :=
  mock_timeline_pagination_composes 3 (by decide) sampleGenEnv sampleGenEnv

set_option maxRecDepth 100000 in
/-- Counterexample to claim C8: the cid keeps only the last 20 characters of
the record key (`slice(-20)`), so two distinct counter values sharing their
last 20 decimal digits produce the same cid (here counters `10^20` and
`2·10^20`); the uris still differ. -/
theorem mock_post_cid_collision :
    (generateMockPostResponse "a" none 0 (10 ^ 20 - 1) "t1").1.cid
      = (generateMockPostResponse "b" none 0 (2 * 10 ^ 20 - 1) "t2").1.cid ∧
    (generateMockPostResponse "a" none 0 (10 ^ 20 - 1) "t1").1.uri
      ≠ (generateMockPostResponse "b" none 0 (2 * 10 ^ 20 - 1) "t2").1.uri := by
  constructor
  · decide
  · decide

/-- Claim C8 as amended (corrected): the counter strictly increases on every
call, any two invocations with distinct counters yield distinct uris, and
they yield distinct cids provided each (post-increment) counter value stays
below `10^20` — i.e. fits the 20-character `slice(-20)` window of the cid. -/
theorem mock_post_uri_cid_distinct :
    ∀ (text1 text2 : String) (media1 media2 : Option (List String))
      (t1 t2 : Int) (p1 p2 : Nat) (iso1 iso2 : String),
      p1 ≠ p2 →
      ((generateMockPostResponse text1 media1 t1 p1 iso1).2 = p1 + 1 ∧
       (generateMockPostResponse text1 media1 t1 p1 iso1).1.uri
         ≠ (generateMockPostResponse text2 media2 t2 p2 iso2).1.uri ∧
       (p1 + 1 < 10 ^ 20 → p2 + 1 < 10 ^ 20 →
        (generateMockPostResponse text1 media1 t1 p1 iso1).1.cid
          ≠ (generateMockPostResponse text2 media2 t2 p2 iso2).1.cid)) := by
  intro text1 text2 media1 media2 t1 t2 p1 p2 iso1 iso2 hne
  refine ⟨rfl, ?_, ?_⟩
  · intro h
    have hd : "at://did:plc:mockuser123/app.bsky.feed.post/".data
          ++ mockPostIdChars t1 (p1 + 1)
        = "at://did:plc:mockuser123/app.bsky.feed.post/".data
          ++ mockPostIdChars t2 (p2 + 1) := congrArg String.data h
    have ht := congrArg trailingDigitsRev hd
    rw [mockUri_trailing, mockUri_trailing] at ht
    have := jsStringOfNat_inj (List.reverse_injective ht)
    omega
  · intro hb1 hb2 h
    have hd : "bafyrei".data ++ padStartZeros 20 (lastN 20 (mockPostIdChars t1 (p1 + 1)))
        = "bafyrei".data ++ padStartZeros 20 (lastN 20 (mockPostIdChars t2 (p2 + 1)))
          := congrArg String.data h
    have ht := congrArg trailingDigitsRev hd
    rw [mockCid_trailing _ _ hb1, mockCid_trailing _ _ hb2] at ht
    have := jsStringOfNat_inj (List.reverse_injective ht)
    omega

/-- Witness for the amended C8: consecutive counters 1 and 2 give distinct
uris and cids. -/
theorem mock_post_uri_cid_distinct_witness :
    (generateMockPostResponse "first" none 100 0 "i1").1.uri
      ≠ (generateMockPostResponse "second" none 100 1 "i2").1.uri ∧
    (generateMockPostResponse "first" none 100 0 "i1").1.cid
      ≠ (generateMockPostResponse "second" none 100 1 "i2").1.cid := by
  have h := mock_post_uri_cid_distinct "first" "second" none none 100 100 0 1 "i1" "i2"
    (by decide)
  exact ⟨h.2.1, h.2.2 (by norm_num) (by norm_num)⟩
